import Mathlib

/-!
Shallow embedding of the dev-share backend's error-classification core and
transactional unit-of-work coordinator, together with proofs about the
properties the specification states for them.

Sources embedded (Go):
- `backend/pkg/errors/errors.go`, `codes.go`, severity file: the rich error
  value (`Error` struct), its constructors (`New`, `Wrap`, package-level
  `WithCode`) and fluent mutators.
- driver error classifiers (`WrapDatabaseError` / `wrapPostgresError` for
  Postgres, `WrapSQLiteError` / `wrapSQLiteErr` for SQLite).
- `backend/internal/infra/postgres/unit_of_work.go`: the depth-counted
  `UnitOfWork` with `Begin`/`Commit`/`Rollback`/`doRollback`.
- the Fiber `ErrorHandler` transport translator.

Modelling conventions:
- Machine state that Go mutates in place is passed explicitly.
- `time.Now()` results are passed as an explicit `now : Nat` parameter.
- `captureStack` walks the goroutine stack at runtime; at every call site in
  the embedded code (`runtime.Callers` with skip 3 from a non-trivial call
  chain) it returns at least one program counter.  It is modelled as a
  function of the caller's site, returning that single pc.
- Go maps are modelled as association lists with at most one binding per key
  (`metaSet` replaces an existing binding).
- Fallible physical database operations are modelled by an explicit
  `Option RawErr` outcome parameter (`none` = success).
-/

namespace DevShare

/-- Severity levels, from the errors package severity file
(`SeverityDebug` .. `SeverityCritical`). -/
inductive Severity where
  | debug
  | info
  | warning
  | error
  | critical
deriving DecidableEq, Repr

/-- `Severity.ShouldCaptureStack`: true exactly for Error and Critical. -/
def Severity.shouldCaptureStack : Severity → Bool
  | Severity.error => true
  | Severity.critical => true
  | _ => false

/-- Error codes from `codes.go` (a closed set of string constants). -/
inductive Code where
  | unknown
  | internal
  | invalidInput
  | notFound
  | conflict
  | unauthorized
  | forbidden
  | database
  | constraint
  | validation
deriving DecidableEq, Repr

/-- The string value of each code constant (`Code` is a Go string type). -/
def Code.str : Code → String
  | Code.unknown => "UNKNOWN"
  | Code.internal => "INTERNAL"
  | Code.invalidInput => "INVALID_INPUT"
  | Code.notFound => "NOT_FOUND"
  | Code.conflict => "CONFLICT"
  | Code.unauthorized => "UNAUTHORIZED"
  | Code.forbidden => "FORBIDDEN"
  | Code.database => "DATABASE_ERROR"
  | Code.constraint => "CONSTRAINT_VIOLATION"
  | Code.validation => "VALIDATION_ERROR"

/-- `Code.HTTPStatus` from `codes.go`. -/
def Code.httpStatus : Code → Nat
  | Code.invalidInput => 400
  | Code.validation => 400
  | Code.unauthorized => 401
  | Code.forbidden => 403
  | Code.notFound => 404
  | Code.conflict => 409
  | Code.constraint => 409
  | Code.internal => 500
  | Code.database => 500
  | Code.unknown => 500

/-- Metadata values stored in the `map[string]interface{}` metadata map:
the embedded code stores strings and the SQLite integer result code. -/
inductive MetaVal where
  | str (s : String)
  | nat (n : Nat)
deriving DecidableEq, Repr

/-- Fields of `*pq.Error` used by `wrapPostgresError`. -/
structure PqError where
  code : String
  message : String
  detail : String
  hint : String
  constraint : String
  table : String
  column : String
deriving DecidableEq, Repr

/-- The `*sqlite.Error` shape used by `wrapSQLiteErr`: its extended result
code (`Code()`) and its `Error()` text. -/
structure SqliteError where
  code : Nat
  msg : String
deriving DecidableEq, Repr

/-- Raw (non-`*Error`) Go error values reaching the classifiers and
handler: the `sql.ErrNoRows` sentinel, the two driver error types, or any
other opaque error carrying only its `Error()` text. -/
inductive RawErr where
  | errNoRows
  | pq (p : PqError)
  | sqlite (s : SqliteError)
  | other (msg : String)
deriving DecidableEq, Repr

/-- `Error()` text of the raw error shapes (from the respective libraries:
`database/sql`, `lib/pq` which prints "pq: " + Message, `modernc.org/sqlite`
whose text we keep opaque). -/
def RawErr.errText : RawErr → String
  | RawErr.errNoRows => "sql: no rows in result set"
  | RawErr.pq p => "pq: " ++ p.message
  | RawErr.sqlite s => s.msg
  | RawErr.other m => m

mutual
/-- The rich error value (struct `Error` of `backend/pkg/errors`):
message, code, severity, cause, metadata, timestamp, stack (program
counters), httpStatus. -/
inductive ErrVal where
  | mk (message : String) (code : Code) (severity : Severity) (cause : Cause)
       (metadata : List (String × MetaVal)) (timestamp : Nat)
       (stack : List Nat) (httpStatus : Nat)

/-- The `cause error` field: nil, a raw (non-`*Error`) Go error, or another
`*Error`. -/
inductive Cause where
  | none
  | raw (r : RawErr)
  | app (e : ErrVal)
end

def ErrVal.message : ErrVal → String
  | ErrVal.mk m _ _ _ _ _ _ _ => m

def ErrVal.code : ErrVal → Code
  | ErrVal.mk _ c _ _ _ _ _ _ => c

def ErrVal.severity : ErrVal → Severity
  | ErrVal.mk _ _ s _ _ _ _ _ => s

def ErrVal.cause : ErrVal → Cause
  | ErrVal.mk _ _ _ c _ _ _ _ => c

def ErrVal.metadata : ErrVal → List (String × MetaVal)
  | ErrVal.mk _ _ _ _ md _ _ _ => md

def ErrVal.timestamp : ErrVal → Nat
  | ErrVal.mk _ _ _ _ _ ts _ _ => ts

def ErrVal.stack : ErrVal → List Nat
  | ErrVal.mk _ _ _ _ _ _ st _ => st

def ErrVal.httpStatus : ErrVal → Nat
  | ErrVal.mk _ _ _ _ _ _ _ hs => hs

/-- `captureStack(3)` at a given call site: `runtime.Callers` from the
embedded call sites always yields at least one frame; the caller's pc
stands for the captured (non-empty) stack. -/
def captureStack (site : Nat) : List Nat := [site]

/-- Go map assignment `m[k] = v` on the metadata association list:
replaces an existing binding for `k`, otherwise appends one. -/
def metaSet : List (String × MetaVal) → String → MetaVal → List (String × MetaVal)
  | [], k, v => [(k, v)]
  | (k', v') :: rest, k, v =>
      if k' = k then (k, v) :: rest else (k', v') :: metaSet rest k v

/-- Go map lookup `m[k]` on the metadata association list. -/
def metaGet : List (String × MetaVal) → String → Option MetaVal
  | [], _ => Option.none
  | (k', v') :: rest, k => if k' = k then some v' else metaGet rest k

/-- `copyMetadata`: Go copies the map to protect against aliasing; with
value semantics the copy is the list itself. -/
def copyMetadata (m : List (String × MetaVal)) : List (String × MetaVal) := m

/-- `New(message)`: code Unknown, severity Error, httpStatus 500, stack
captured immediately. -/
def New (message : String) (now site : Nat) : ErrVal :=
  ErrVal.mk message Code.unknown Severity.error Cause.none [] now
    (captureStack site) 500

/-- The `*Error` branch of `Wrap`: inherit code, severity, httpStatus and
the stack unchanged; copy the metadata; record the wrapped value as cause. -/
def wrapApp (appErr : ErrVal) (message : String) (now : Nat) : ErrVal :=
  ErrVal.mk message appErr.code appErr.severity (Cause.app appErr)
    (copyMetadata appErr.metadata) now appErr.stack appErr.httpStatus

/-- The regular-error branch of `Wrap`: code Unknown, severity Error,
stack captured at the Wrap site, httpStatus 500. -/
def wrapRaw (r : RawErr) (message : String) (now site : Nat) : ErrVal :=
  ErrVal.mk message Code.unknown Severity.error (Cause.raw r) [] now
    (captureStack site) 500

/-- `Wrap(err, message)`: nil in, nil out; otherwise dispatch on whether
`err` is already an `*Error`. -/
def Wrap (err : Cause) (message : String) (now site : Nat) : Option ErrVal :=
  match err with
  | Cause.none => Option.none
  | Cause.app appErr => some (wrapApp appErr message now)
  | Cause.raw r => some (wrapRaw r message now site)

/-- Package-level `WithCode(code, message)` constructor: severity defaulted
from the code, httpStatus the code's canonical status, stack captured only
when the defaulted severity requires it. -/
def WithCode (code : Code) (message : String) (now site : Nat) : ErrVal :=
  let severity : Severity :=
    match code with
    | Code.notFound | Code.conflict | Code.invalidInput | Code.validation =>
        Severity.warning
    | Code.unauthorized | Code.forbidden => Severity.warning
    | _ => Severity.error
  let stack : List Nat :=
    if severity.shouldCaptureStack then captureStack site else []
  ErrVal.mk message code severity Cause.none [] now stack code.httpStatus

/-- Fluent `(*Error).WithMetadata(key, value)`. -/
def ErrVal.WithMetadata : ErrVal → String → MetaVal → ErrVal
  | ErrVal.mk m c s ca md ts st hs, k, v =>
      ErrVal.mk m c s ca (metaSet md k v) ts st hs

/-- Fluent `(*Error).WithHTTPStatus(status)`. -/
def ErrVal.WithHTTPStatus : ErrVal → Nat → ErrVal
  | ErrVal.mk m c s ca md ts st _, status =>
      ErrVal.mk m c s ca md ts st status

/-- Fluent `(*Error).WithSeverity(severity)`: sets the severity and
captures a stack when the new severity requires one and none exists yet;
never clears an existing stack. -/
def ErrVal.WithSeverity : ErrVal → Severity → Nat → ErrVal
  | ErrVal.mk m c _ ca md ts st hs, severity, site =>
      let st2 :=
        if severity.shouldCaptureStack && st.length == 0 then
          captureStack site
        else st
      ErrVal.mk m c severity ca md ts st2 hs

/-- Fluent `(*Error).WithCode(code)`: sets the code; updates the
httpStatus only when it is 0 or already equals the new code's status. -/
def ErrVal.WithCode : ErrVal → Code → ErrVal
  | ErrVal.mk m _ s ca md ts st hs, code =>
      let hs2 := if hs = 0 ∨ hs = code.httpStatus then code.httpStatus else hs
      ErrVal.mk m code s ca md ts st hs2

/-- `(*Error).GetMetadata()`: a defensive copy of the metadata. -/
def ErrVal.GetMetadata (e : ErrVal) : List (String × MetaVal) :=
  copyMetadata e.metadata

mutual
/-- `(*Error).Error()`: the message, or "message: cause" when a cause is
present, recursing through the cause chain. -/
def ErrVal.errString : ErrVal → String
  | ErrVal.mk m _ _ Cause.none _ _ _ _ => m
  | ErrVal.mk m _ _ c _ _ _ _ => m ++ ": " ++ c.causeString

/-- `Error()` text of a cause (the `%v` rendering in `fmt.Sprintf`). -/
def Cause.causeString : Cause → String
  | Cause.none => ""
  | Cause.raw r => r.errText
  | Cause.app e => e.errString
end

/-! ## Driver error classifiers -/

/-- Postgres constraint SQLSTATE codes (constants of the infra errors
package). -/
def CodePostgresUniqueViolation : String := "23505"

def CodePostgresForeignKeyViolation : String := "23503"

def CodePostgresCheckViolation : String := "23514"

def CodePostgresNotNullViolation : String := "23502"

/-- SQLite extended result codes (constants of the SQLite infra errors
package). -/
def sqliteConstraintUnique : Nat := 2067

def sqliteConstraintForeignKey : Nat := 787

def sqliteConstraintNotNull : Nat := 1299

/-- `wrapPostgresError(pqErr, operation)`: wrap the driver error, attach
operation plus the pg_* fields, then dispatch on the SQLSTATE code. -/
def wrapPostgresError (p : PqError) (operation : String) (now site : Nat) : ErrVal :=
  let base :=
    ((((((((wrapRaw (RawErr.pq p) ("postgres error: " ++ p.message) now site).WithMetadata
      "operation" (MetaVal.str operation)).WithMetadata
      "pg_code" (MetaVal.str p.code)).WithMetadata
      "pg_detail" (MetaVal.str p.detail)).WithMetadata
      "pg_hint" (MetaVal.str p.hint)).WithMetadata
      "pg_constraint" (MetaVal.str p.constraint)).WithMetadata
      "pg_table" (MetaVal.str p.table)).WithMetadata
      "pg_column" (MetaVal.str p.column))
  if p.code = CodePostgresUniqueViolation then
    ((base.WithCode Code.conflict).WithHTTPStatus 409).WithSeverity Severity.warning site
  else if p.code = CodePostgresForeignKeyViolation then
    ((base.WithCode Code.invalidInput).WithHTTPStatus 400).WithSeverity Severity.warning site
  else if p.code = CodePostgresCheckViolation then
    ((base.WithCode Code.validation).WithHTTPStatus 400).WithSeverity Severity.warning site
  else if p.code = CodePostgresNotNullViolation then
    ((base.WithCode Code.invalidInput).WithHTTPStatus 400).WithSeverity Severity.warning site
  else
    ((base.WithCode Code.database).WithHTTPStatus 500).WithSeverity Severity.error site

/-- `WrapDatabaseError(err, operation)` (Postgres classifier): nil passes
through; `sql.ErrNoRows` becomes NotFound/Warning; `*pq.Error` dispatches
to `wrapPostgresError`; anything else is wrapped generically. -/
def WrapDatabaseError (err : Cause) (operation : String) (now site : Nat) : Option ErrVal :=
  match err with
  | Cause.none => Option.none
  | Cause.raw RawErr.errNoRows =>
      some (((WithCode Code.notFound "record not found" now site).WithMetadata
        "operation" (MetaVal.str operation)).WithSeverity Severity.warning site)
  | Cause.raw (RawErr.pq p) => some (wrapPostgresError p operation now site)
  | other =>
      (Wrap other "database operation failed" now site).map fun b =>
        ((b.WithMetadata "operation" (MetaVal.str operation)).WithHTTPStatus
          500).WithSeverity Severity.error site

/-- `wrapSQLiteErr(err, operation)`: wrap the driver error, attach
operation and the sqlite code, then dispatch on the extended result code. -/
def wrapSQLiteErr (s : SqliteError) (operation : String) (now site : Nat) : ErrVal :=
  let base :=
    ((wrapRaw (RawErr.sqlite s) "sqlite error" now site).WithMetadata
      "operation" (MetaVal.str operation)).WithMetadata
      "sqlite_code" (MetaVal.nat s.code)
  if s.code = sqliteConstraintUnique then
    ((base.WithCode Code.conflict).WithHTTPStatus 409).WithSeverity Severity.warning site
  else if s.code = sqliteConstraintForeignKey then
    ((base.WithCode Code.invalidInput).WithHTTPStatus 400).WithSeverity Severity.warning site
  else if s.code = sqliteConstraintNotNull then
    ((base.WithCode Code.invalidInput).WithHTTPStatus 400).WithSeverity Severity.warning site
  else
    ((base.WithCode Code.database).WithHTTPStatus 500).WithSeverity Severity.error site

/-- `WrapSQLiteError(err, operation)` (SQLite classifier): same shape as
the Postgres classifier, dispatching on `*sqlite.Error`. -/
def WrapSQLiteError (err : Cause) (operation : String) (now site : Nat) : Option ErrVal :=
  match err with
  | Cause.none => Option.none
  | Cause.raw RawErr.errNoRows =>
      some (((WithCode Code.notFound "record not found" now site).WithMetadata
        "operation" (MetaVal.str operation)).WithSeverity Severity.warning site)
  | Cause.raw (RawErr.sqlite s) => some (wrapSQLiteErr s operation now site)
  | other =>
      (Wrap other "database operation failed" now site).map fun b =>
        ((b.WithMetadata "operation" (MetaVal.str operation)).WithHTTPStatus
          500).WithSeverity Severity.error site

/-! ## Unit-of-work coordinator -/

/-- The physical operations `Begin`/`Commit`/`Rollback` can issue on the
underlying `*sql.DB` / `*sql.Tx`. -/
inductive PhysOp where
  | beginTx
  | commitTx
  | rollbackTx
deriving DecidableEq, Repr

/-- The mutable `UnitOfWork` state: whether `tx` is non-nil, the nesting
depth, and the failed flag. -/
structure UnitOfWork where
  txOpen : Bool
  depth : Nat
  failed : Bool
deriving DecidableEq, Repr

/-- `UnitOfWork.Begin`: at depth 0 open a physical transaction (on failure
return a wrapped Internal error without incrementing the depth); then
increment the depth. -/
def UnitOfWork.Begin (u : UnitOfWork) (phys : Option RawErr) (now site : Nat) :
    UnitOfWork × List PhysOp × Option ErrVal :=
  if u.depth = 0 then
    match phys with
    | some e =>
        (u, [PhysOp.beginTx],
          some (((wrapRaw e "failed to begin transaction" now site).WithCode
            Code.internal).WithHTTPStatus 500))
    | Option.none =>
        ({ u with txOpen := true, depth := u.depth + 1 }, [PhysOp.beginTx],
          Option.none)
  else
    ({ u with depth := u.depth + 1 }, [], Option.none)

/-- `UnitOfWork.doRollback`: physically roll back, clear the transaction
and the failed flag, report a wrapped Internal error on failure. -/
def UnitOfWork.doRollback (u : UnitOfWork) (phys : Option RawErr) (now site : Nat) :
    UnitOfWork × List PhysOp × Option ErrVal :=
  let u2 := { u with txOpen := false, failed := false }
  match phys with
  | some e =>
      (u2, [PhysOp.rollbackTx],
        some (((wrapRaw e "failed to rollback transaction" now site).WithCode
          Code.internal).WithHTTPStatus 500))
  | Option.none => (u2, [PhysOp.rollbackTx], Option.none)

/-- `UnitOfWork.Commit`: fail at depth 0; decrement; inner commits return
without touching the physical transaction; at depth 0, roll back if the
failed flag is set, otherwise physically commit and clear the handle. -/
def UnitOfWork.Commit (u : UnitOfWork) (phys : Option RawErr) (now site : Nat) :
    UnitOfWork × List PhysOp × Option ErrVal :=
  if u.depth = 0 then
    (u, [],
      some (((New "no active transaction" now site).WithCode
        Code.internal).WithHTTPStatus 500))
  else
    let u1 := { u with depth := u.depth - 1 }
    if 0 < u1.depth then (u1, [], Option.none)
    else if u1.failed then u1.doRollback phys now site
    else
      let u2 := { u1 with txOpen := false }
      match phys with
      | some e =>
          (u2, [PhysOp.commitTx],
            some (((wrapRaw e "failed to commit transaction" now site).WithCode
              Code.internal).WithHTTPStatus 500))
      | Option.none => (u2, [PhysOp.commitTx], Option.none)

/-- `UnitOfWork.Rollback`: a no-op at depth 0; otherwise set the failed
flag, reset the depth to 0 and perform the physical rollback. -/
def UnitOfWork.Rollback (u : UnitOfWork) (phys : Option RawErr) (now site : Nat) :
    UnitOfWork × List PhysOp × Option ErrVal :=
  if u.depth = 0 then (u, [], Option.none)
  else UnitOfWork.doRollback { u with failed := true, depth := 0 } phys now site

/-- The three public coordinator calls. -/
inductive Cmd where
  | beginCmd
  | commitCmd
  | rollbackCmd
deriving DecidableEq, Repr

/-- One public coordinator call on a handle. -/
def step (u : UnitOfWork) (c : Cmd) (phys : Option RawErr) (now site : Nat) :
    UnitOfWork × List PhysOp × Option ErrVal :=
  match c with
  | Cmd.beginCmd => u.Begin phys now site
  | Cmd.commitCmd => u.Commit phys now site
  | Cmd.rollbackCmd => u.Rollback phys now site

/-- States reachable from a fresh handle (`NewUnitOfWork`) by any sequence
of public calls with any physical outcomes. -/
inductive Reachable : UnitOfWork → Prop where
  | fresh : Reachable (UnitOfWork.mk false 0 false)
  | next (u : UnitOfWork) (c : Cmd) (phys : Option RawErr) (now site : Nat) :
      Reachable u → Reachable (step u c phys now site).1

/-- Run a command sequence with every physical operation succeeding,
collecting the physical operations performed and each call's result. -/
def runOk : UnitOfWork → List Cmd → UnitOfWork × List PhysOp × List (Option ErrVal)
  | u, [] => (u, [], [])
  | u, c :: cs =>
      let r := step u c Option.none 0 0
      let rest := runOk r.1 cs
      (rest.1, r.2.1 ++ rest.2.1, r.2.2 :: rest.2.2)

/-! ## Transport error translator -/

/-- The JSON error detail of the wire envelope. -/
structure ErrorDetail where
  code : String
  message : String
  metadata : List (String × MetaVal)
deriving DecidableEq, Repr

/-- The JSON error response body `{"error": {...}}`. -/
structure ErrorResponse where
  error : ErrorDetail
deriving DecidableEq, Repr

/-- The structured log record emitted by `logError` for one request error:
the `LogValue()` fields of the error (message, code, severity, metadata,
cause text, stack) plus the response status.  Transport correlation fields
(path, method, request id) are omitted as irrelevant context. -/
structure LogRecord where
  message : String
  code : Code
  severity : Severity
  metadata : List (String × MetaVal)
  causeText : Option String
  stack : List Nat
  status : Nat
deriving DecidableEq, Repr

/-- The `LogValue()`/`logError` record for an error value. -/
def logRecordOf (e : ErrVal) : LogRecord :=
  { message := e.message
    code := e.code
    severity := e.severity
    metadata := e.metadata
    causeText :=
      match e.cause with
      | Cause.none => Option.none
      | c => some c.causeString
    stack := e.stack
    status := e.httpStatus }

/-- The Fiber `ErrorHandler`: nil passes through; a non-`*Error` error is
wrapped as an internal server error (`errors.As` fails exactly on the raw
shapes, whose cause chains contain no `*Error`); the result is logged and
serialized as `(status, body)` with body fields code, `Error()` message and
the metadata copy. -/
def ErrorHandler (err : Cause) (now site : Nat) :
    Option (Nat × ErrorResponse × LogRecord) :=
  match err with
  | Cause.none => Option.none
  | Cause.app e =>
      some (e.httpStatus,
        { error := { code := e.code.str, message := e.errString, metadata := e.GetMetadata } },
        logRecordOf e)
  | Cause.raw r =>
      let appErr :=
        ((wrapRaw r "internal server error" now site).WithHTTPStatus
          500).WithSeverity Severity.error site
      some (appErr.httpStatus,
        { error := { code := appErr.code.str, message := appErr.errString,
                     metadata := appErr.GetMetadata } },
        logRecordOf appErr)

/-- Statement helper: the same error value with its stack field replaced
(used to state that the serialized response does not depend on the stack). -/
def ErrVal.withStackField : ErrVal → List Nat → ErrVal
  | ErrVal.mk m c s ca md ts _ hs, st => ErrVal.mk m c s ca md ts st hs

/-- The error values the program can build: the closure of the public
constructors of the errors package under the fluent mutators.  The driver
classifiers and the domain error constructors compose exactly these
primitives, so their outputs are in this closure. -/
inductive Produced : ErrVal → Prop where
  | newP (m : String) (now site : Nat) : Produced (New m now site)
  | withCodeCtorP (c : Code) (m : String) (now site : Nat) :
      Produced (WithCode c m now site)
  | wrapRawP (r : RawErr) (m : String) (now site : Nat) :
      Produced (wrapRaw r m now site)
  | wrapAppP (e : ErrVal) (m : String) (now : Nat) :
      Produced e → Produced (wrapApp e m now)
  | withMetadataP (e : ErrVal) (k : String) (v : MetaVal) :
      Produced e → Produced (e.WithMetadata k v)
  | withHTTPStatusP (e : ErrVal) (s : Nat) :
      Produced e → Produced (e.WithHTTPStatus s)
  | withSeverityP (e : ErrVal) (s : Severity) (site : Nat) :
      Produced e → Produced (e.WithSeverity s site)
  | withCodeMutP (e : ErrVal) (c : Code) :
      Produced e → Produced (e.WithCode c)

/-! ## Field lemmas for the fluent mutators and constructors -/

@[simp] theorem withMetadata_code (e : ErrVal) (k : String) (v : MetaVal) :
    (e.WithMetadata k v).code = e.code := by cases e; rfl

@[simp] theorem withMetadata_severity (e : ErrVal) (k : String) (v : MetaVal) :
    (e.WithMetadata k v).severity = e.severity := by cases e; rfl

@[simp] theorem withMetadata_httpStatus (e : ErrVal) (k : String) (v : MetaVal) :
    (e.WithMetadata k v).httpStatus = e.httpStatus := by cases e; rfl

@[simp] theorem withMetadata_stack (e : ErrVal) (k : String) (v : MetaVal) :
    (e.WithMetadata k v).stack = e.stack := by cases e; rfl

@[simp] theorem withMetadata_metadata (e : ErrVal) (k : String) (v : MetaVal) :
    (e.WithMetadata k v).metadata = metaSet e.metadata k v := by cases e; rfl

@[simp] theorem withHTTPStatus_code (e : ErrVal) (s : Nat) :
    (e.WithHTTPStatus s).code = e.code := by cases e; rfl

@[simp] theorem withHTTPStatus_severity (e : ErrVal) (s : Nat) :
    (e.WithHTTPStatus s).severity = e.severity := by cases e; rfl

@[simp] theorem withHTTPStatus_httpStatus (e : ErrVal) (s : Nat) :
    (e.WithHTTPStatus s).httpStatus = s := by cases e; rfl

@[simp] theorem withHTTPStatus_stack (e : ErrVal) (s : Nat) :
    (e.WithHTTPStatus s).stack = e.stack := by cases e; rfl

@[simp] theorem withHTTPStatus_metadata (e : ErrVal) (s : Nat) :
    (e.WithHTTPStatus s).metadata = e.metadata := by cases e; rfl

@[simp] theorem withSeverity_code (e : ErrVal) (s : Severity) (site : Nat) :
    (e.WithSeverity s site).code = e.code := by cases e; rfl

@[simp] theorem withSeverity_severity (e : ErrVal) (s : Severity) (site : Nat) :
    (e.WithSeverity s site).severity = s := by cases e; rfl

@[simp] theorem withSeverity_httpStatus (e : ErrVal) (s : Severity) (site : Nat) :
    (e.WithSeverity s site).httpStatus = e.httpStatus := by cases e; rfl

@[simp] theorem withSeverity_metadata (e : ErrVal) (s : Severity) (site : Nat) :
    (e.WithSeverity s site).metadata = e.metadata := by cases e; rfl

theorem withSeverity_stack (e : ErrVal) (s : Severity) (site : Nat) :
    (e.WithSeverity s site).stack =
      if s.shouldCaptureStack && e.stack.length == 0 then captureStack site
      else e.stack := by cases e; rfl

@[simp] theorem withCodeMut_code (e : ErrVal) (c : Code) :
    (e.WithCode c).code = c := by cases e; rfl

@[simp] theorem withCodeMut_severity (e : ErrVal) (c : Code) :
    (e.WithCode c).severity = e.severity := by cases e; rfl

@[simp] theorem withCodeMut_stack (e : ErrVal) (c : Code) :
    (e.WithCode c).stack = e.stack := by cases e; rfl

@[simp] theorem withCodeMut_metadata (e : ErrVal) (c : Code) :
    (e.WithCode c).metadata = e.metadata := by cases e; rfl

theorem withCodeMut_httpStatus (e : ErrVal) (c : Code) :
    (e.WithCode c).httpStatus =
      if e.httpStatus = 0 ∨ e.httpStatus = c.httpStatus then c.httpStatus
      else e.httpStatus := by cases e; rfl

@[simp] theorem wrapApp_code (e : ErrVal) (m : String) (now : Nat) :
    (wrapApp e m now).code = e.code := rfl

@[simp] theorem wrapApp_severity (e : ErrVal) (m : String) (now : Nat) :
    (wrapApp e m now).severity = e.severity := rfl

@[simp] theorem wrapApp_httpStatus (e : ErrVal) (m : String) (now : Nat) :
    (wrapApp e m now).httpStatus = e.httpStatus := rfl

@[simp] theorem wrapApp_stack (e : ErrVal) (m : String) (now : Nat) :
    (wrapApp e m now).stack = e.stack := rfl

@[simp] theorem wrapApp_metadata (e : ErrVal) (m : String) (now : Nat) :
    (wrapApp e m now).metadata = copyMetadata e.metadata := rfl

@[simp] theorem wrapRaw_code (r : RawErr) (m : String) (now site : Nat) :
    (wrapRaw r m now site).code = Code.unknown := rfl

@[simp] theorem wrapRaw_severity (r : RawErr) (m : String) (now site : Nat) :
    (wrapRaw r m now site).severity = Severity.error := rfl

@[simp] theorem wrapRaw_httpStatus (r : RawErr) (m : String) (now site : Nat) :
    (wrapRaw r m now site).httpStatus = 500 := rfl

@[simp] theorem wrapRaw_stack (r : RawErr) (m : String) (now site : Nat) :
    (wrapRaw r m now site).stack = captureStack site := rfl

@[simp] theorem wrapRaw_metadata (r : RawErr) (m : String) (now site : Nat) :
    (wrapRaw r m now site).metadata = [] := rfl

@[simp] theorem captureStack_ne_nil (site : Nat) : captureStack site ≠ [] := by
  simp [captureStack]

/-! ## Claim C1 -/

/-- C1 counterexample: the Warning-implies-empty-stack half of the claim is
false at a concrete constraint-violation classification.  The Postgres
classifier's unique-violation value is built by `Wrap` (severity Error,
stack captured) and only then downgraded with `WithSeverity(Warning)`,
which never clears a stack, so the result has severity Warning and a
non-empty stack. -/
theorem c1_counterexample :
    ¬ (∀ e : ErrVal, Produced e →
        ((e.severity = Severity.warning ∨ e.severity = Severity.info ∨
          e.severity = Severity.debug) → e.stack = [])) := by
  intro h
  have hbase : Produced
      (((((((((wrapRaw (RawErr.pq ⟨"23505", "dup", "", "", "users_email_key", "users", "email"⟩)
          ("postgres error: " ++ "dup") 0 7).WithMetadata
        "operation" (MetaVal.str "create_user")).WithMetadata
        "pg_code" (MetaVal.str "23505")).WithMetadata
        "pg_detail" (MetaVal.str "")).WithMetadata
        "pg_hint" (MetaVal.str "")).WithMetadata
        "pg_constraint" (MetaVal.str "users_email_key")).WithMetadata
        "pg_table" (MetaVal.str "users")).WithMetadata
        "pg_column" (MetaVal.str "email"))) :=
    Produced.withMetadataP _ _ _ (Produced.withMetadataP _ _ _ (Produced.withMetadataP _ _ _
      (Produced.withMetadataP _ _ _ (Produced.withMetadataP _ _ _ (Produced.withMetadataP _ _ _
        (Produced.withMetadataP _ _ _ (Produced.wrapRawP _ _ 0 7)))))))
  have hp : Produced
      (wrapPostgresError ⟨"23505", "dup", "", "", "users_email_key", "users", "email"⟩
        "create_user" 0 7) :=
    Produced.withSeverityP _ _ _ (Produced.withHTTPStatusP _ _ (Produced.withCodeMutP _ _ hbase))
  have hempty := h _ hp (Or.inl rfl)
  have hst : (wrapPostgresError ⟨"23505", "dup", "", "", "users_email_key", "users", "email"⟩
      "create_user" 0 7).stack = [7] := rfl
  rw [hst] at hempty
  cases hempty

/-- C1 (amended): of the claimed invariant, only the Error/Critical half
holds of every error value the constructors, classifiers and mutators can
produce: severity Error or Critical implies a non-empty stack.  The
Warning/Info/Debug half is false (see the counterexample): a classifier
constraint-violation value has severity Warning and a non-empty stack. -/
theorem c1_error_severity_has_stack (e : ErrVal) (he : Produced e) :
    (e.severity = Severity.error ∨ e.severity = Severity.critical) → e.stack ≠ [] := by
  induction he with
  | newP m now site => intro _; simp [New, ErrVal.stack, captureStack]
  | withCodeCtorP c m now site =>
      intro hs
      cases c <;>
        simp [WithCode, ErrVal.severity, ErrVal.stack, Severity.shouldCaptureStack,
          captureStack] at hs ⊢
  | wrapRawP r m now site => intro _; simp [wrapRaw, ErrVal.stack, captureStack]
  | wrapAppP e m now he ih =>
      intro hs
      exact ih (by simpa using hs)
  | withMetadataP e k v he ih =>
      intro hsev
      rw [withMetadata_stack]
      exact ih (by simpa using hsev)
  | withHTTPStatusP e s he ih =>
      intro hsev
      rw [withHTTPStatus_stack]
      exact ih (by simpa using hsev)
  | withSeverityP e s site he ih =>
      intro hsev
      have hcap : s.shouldCaptureStack = true := by
        rcases hsev with h | h <;> simp at h <;> simp [h, Severity.shouldCaptureStack]
      rw [withSeverity_stack]
      rcases hst : e.stack with _ | ⟨a, as⟩
      · simp [hcap, captureStack]
      · simp [hcap, hst]
  | withCodeMutP e c he ih =>
      intro hsev
      rw [withCodeMut_stack]
      exact ih (by simpa using hsev)

/-- C1 witness for the amended theorem: `New` builds an Error-severity
value, and its stack is non-empty. -/
theorem c1_error_severity_has_stack_witness : (New "boom" 0 0).stack ≠ [] :=
  c1_error_severity_has_stack (New "boom" 0 0) (Produced.newP "boom" 0 0) (Or.inl rfl)

/-! ## Claim C5 -/

/-- C5: a unique-constraint violation from either backend (Postgres
SQLSTATE 23505, SQLite extended code 2067) classifies to code Conflict,
httpStatus 409, severity Warning, with the operation label and the
backend-specific fields in the metadata. -/
theorem c5_unique_violation_conflict (p : PqError) (s : SqliteError)
    (op1 op2 : String) (now1 site1 now2 site2 : Nat)
    (hp : p.code = CodePostgresUniqueViolation)
    (hs : s.code = sqliteConstraintUnique) :
    WrapDatabaseError (Cause.raw (RawErr.pq p)) op1 now1 site1 =
      some (wrapPostgresError p op1 now1 site1)
    ∧ (wrapPostgresError p op1 now1 site1).code = Code.conflict
    ∧ (wrapPostgresError p op1 now1 site1).httpStatus = 409
    ∧ (wrapPostgresError p op1 now1 site1).severity = Severity.warning
    ∧ metaGet (wrapPostgresError p op1 now1 site1).metadata "operation" =
        some (MetaVal.str op1)
    ∧ metaGet (wrapPostgresError p op1 now1 site1).metadata "pg_code" =
        some (MetaVal.str p.code)
    ∧ metaGet (wrapPostgresError p op1 now1 site1).metadata "pg_detail" =
        some (MetaVal.str p.detail)
    ∧ metaGet (wrapPostgresError p op1 now1 site1).metadata "pg_constraint" =
        some (MetaVal.str p.constraint)
    ∧ metaGet (wrapPostgresError p op1 now1 site1).metadata "pg_table" =
        some (MetaVal.str p.table)
    ∧ metaGet (wrapPostgresError p op1 now1 site1).metadata "pg_column" =
        some (MetaVal.str p.column)
    ∧ WrapSQLiteError (Cause.raw (RawErr.sqlite s)) op2 now2 site2 =
        some (wrapSQLiteErr s op2 now2 site2)
    ∧ (wrapSQLiteErr s op2 now2 site2).code = Code.conflict
    ∧ (wrapSQLiteErr s op2 now2 site2).httpStatus = 409
    ∧ (wrapSQLiteErr s op2 now2 site2).severity = Severity.warning
    ∧ metaGet (wrapSQLiteErr s op2 now2 site2).metadata "operation" =
        some (MetaVal.str op2)
    ∧ metaGet (wrapSQLiteErr s op2 now2 site2).metadata "sqlite_code" =
        some (MetaVal.nat s.code) := by
  obtain ⟨pc, pm, pd, ph, pcon, pt, pcol⟩ := p
  obtain ⟨sc, sm⟩ := s
  simp only [PqError.code] at hp
  simp only [SqliteError.code] at hs
  subst hp
  subst hs
  exact ⟨rfl, rfl, rfl, rfl, rfl, rfl, rfl, rfl, rfl, rfl, rfl, rfl, rfl, rfl, rfl, rfl⟩

/-- C5 witness at a concrete unique violation from each backend. -/
theorem c5_unique_violation_conflict_witness :
    (wrapPostgresError ⟨"23505", "dup", "", "", "users_email_key", "users", "email"⟩
      "create_user" 0 0).code = Code.conflict
    ∧ (wrapSQLiteErr ⟨2067, "constraint failed"⟩ "create_user" 0 0).code = Code.conflict := by
  have h := c5_unique_violation_conflict
    ⟨"23505", "dup", "", "", "users_email_key", "users", "email"⟩
    ⟨2067, "constraint failed"⟩ "create_user" "create_user" 0 0 0 0 rfl rfl
  obtain ⟨-, h2, -, -, -, -, -, -, -, -, -, h12, -⟩ := h
  exact ⟨h2, h12⟩

/-! ## Claim C6 -/

/-- C6: classifying the `sql.ErrNoRows` sentinel through either backend's
classifier yields code NotFound and severity Warning with the operation
label in the metadata, for every operation label. -/
theorem c6_no_rows_not_found (op1 op2 : String) (now1 site1 now2 site2 : Nat) :
    (WrapDatabaseError (Cause.raw RawErr.errNoRows) op1 now1 site1).map ErrVal.code =
      some Code.notFound
    ∧ (WrapDatabaseError (Cause.raw RawErr.errNoRows) op1 now1 site1).map ErrVal.severity =
        some Severity.warning
    ∧ (WrapDatabaseError (Cause.raw RawErr.errNoRows) op1 now1 site1).map
        (fun e => metaGet e.metadata "operation") = some (some (MetaVal.str op1))
    ∧ (WrapSQLiteError (Cause.raw RawErr.errNoRows) op2 now2 site2).map ErrVal.code =
        some Code.notFound
    ∧ (WrapSQLiteError (Cause.raw RawErr.errNoRows) op2 now2 site2).map ErrVal.severity =
        some Severity.warning
    ∧ (WrapSQLiteError (Cause.raw RawErr.errNoRows) op2 now2 site2).map
        (fun e => metaGet e.metadata "operation") = some (some (MetaVal.str op2)) :=
  ⟨rfl, rfl, rfl, rfl, rfl, rfl⟩

/-! ## Claim C7 -/

/-- C7 counterexample: a raw failure that is neither the sentinel nor a
driver error shape does NOT classify to code Database: the generic branch
wraps it without `WithCode`, so the code is the `Wrap` default, Unknown. -/
theorem c7_counterexample :
    ¬ (∀ (m op : String) (now site : Nat),
        (WrapDatabaseError (Cause.raw (RawErr.other m)) op now site).map ErrVal.code =
          some Code.database) := by
  intro h
  have hc := h "connection refused" "create_user" 0 0
  have hu : (WrapDatabaseError (Cause.raw (RawErr.other "connection refused"))
      "create_user" 0 0).map ErrVal.code = some Code.unknown := rfl
  rw [hu] at hc
  cases hc

/-- C7 (amended): for a raw failure that is neither the sentinel nor the
backend's driver error type, either classifier returns httpStatus 500 and
severity Error with a captured (non-empty) stack and the operation label in
the metadata, but with code Unknown (the `Wrap` default) rather than
Database; a driver-shaped error with an unrecognized constraint identifier
is the case that yields code Database / 500 / Error. -/
theorem c7_generic_database_error (m1 m2 op1 op2 op3 op4 : String)
    (now1 site1 now2 site2 now3 site3 now4 site4 : Nat)
    (p : PqError) (s : SqliteError)
    (hp1 : p.code ≠ CodePostgresUniqueViolation)
    (hp2 : p.code ≠ CodePostgresForeignKeyViolation)
    (hp3 : p.code ≠ CodePostgresCheckViolation)
    (hp4 : p.code ≠ CodePostgresNotNullViolation)
    (hs1 : s.code ≠ sqliteConstraintUnique)
    (hs2 : s.code ≠ sqliteConstraintForeignKey)
    (hs3 : s.code ≠ sqliteConstraintNotNull) :
    (WrapDatabaseError (Cause.raw (RawErr.other m1)) op1 now1 site1).map ErrVal.code =
      some Code.unknown
    ∧ (WrapDatabaseError (Cause.raw (RawErr.other m1)) op1 now1 site1).map ErrVal.httpStatus =
        some 500
    ∧ (WrapDatabaseError (Cause.raw (RawErr.other m1)) op1 now1 site1).map ErrVal.severity =
        some Severity.error
    ∧ (WrapDatabaseError (Cause.raw (RawErr.other m1)) op1 now1 site1).map ErrVal.stack ≠
        some []
    ∧ (WrapDatabaseError (Cause.raw (RawErr.other m1)) op1 now1 site1).map
        (fun e => metaGet e.metadata "operation") = some (some (MetaVal.str op1))
    ∧ (WrapSQLiteError (Cause.raw (RawErr.other m2)) op2 now2 site2).map ErrVal.code =
        some Code.unknown
    ∧ (WrapSQLiteError (Cause.raw (RawErr.other m2)) op2 now2 site2).map ErrVal.httpStatus =
        some 500
    ∧ (WrapSQLiteError (Cause.raw (RawErr.other m2)) op2 now2 site2).map ErrVal.severity =
        some Severity.error
    ∧ (WrapSQLiteError (Cause.raw (RawErr.other m2)) op2 now2 site2).map ErrVal.stack ≠
        some []
    ∧ (WrapSQLiteError (Cause.raw (RawErr.other m2)) op2 now2 site2).map
        (fun e => metaGet e.metadata "operation") = some (some (MetaVal.str op2))
    ∧ (wrapPostgresError p op3 now3 site3).code = Code.database
    ∧ (wrapPostgresError p op3 now3 site3).httpStatus = 500
    ∧ (wrapPostgresError p op3 now3 site3).severity = Severity.error
    ∧ (wrapSQLiteErr s op4 now4 site4).code = Code.database
    ∧ (wrapSQLiteErr s op4 now4 site4).httpStatus = 500
    ∧ (wrapSQLiteErr s op4 now4 site4).severity = Severity.error := by
  refine ⟨rfl, rfl, rfl, ?_, rfl, rfl, rfl, rfl, ?_, rfl, ?_, ?_, ?_, ?_, ?_, ?_⟩
  · intro hcontra
    have : (WrapDatabaseError (Cause.raw (RawErr.other m1)) op1 now1 site1).map ErrVal.stack =
        some (captureStack site1) := rfl
    rw [this] at hcontra
    simp [captureStack] at hcontra
  · intro hcontra
    have : (WrapSQLiteError (Cause.raw (RawErr.other m2)) op2 now2 site2).map ErrVal.stack =
        some (captureStack site2) := rfl
    rw [this] at hcontra
    simp [captureStack] at hcontra
  all_goals
    simp [wrapPostgresError, wrapSQLiteErr, hp1, hp2, hp3, hp4, hs1, hs2, hs3]

/-- C7 witness for the amended theorem at concrete unrecognized failures. -/
theorem c7_generic_database_error_witness :
    (WrapDatabaseError (Cause.raw (RawErr.other "connection refused")) "create_user" 0 0).map
      ErrVal.code = some Code.unknown
    ∧ (wrapPostgresError ⟨"57014", "canceling statement", "", "", "", "", ""⟩
        "query_timeout" 0 0).code = Code.database := by
  have h := c7_generic_database_error
    "connection refused" "disk full" "create_user" "other_op" "query_timeout" "x"
    0 0 0 0 0 0 0 0
    ⟨"57014", "canceling statement", "", "", "", "", ""⟩ ⟨5, "busy"⟩
    (by decide) (by decide) (by decide) (by decide)
    (by decide) (by decide) (by decide)
  obtain ⟨h1, -, -, -, -, -, -, -, -, -, h11, -⟩ := h
  exact ⟨h1, h11⟩

/-! ## Claim C8 -/

/-- C8: wrapping an existing error value inherits its code, severity and
httpStatus, keeps its stack unchanged with no re-capture, and copies its
metadata; hence a double wrap still carries exactly the original stack. -/
theorem c8_wrap_preserves (e : ErrVal) (m1 m2 : String) (now1 site1 now2 site2 : Nat) :
    Wrap (Cause.app e) m1 now1 site1 = some (wrapApp e m1 now1)
    ∧ (wrapApp e m1 now1).code = e.code
    ∧ (wrapApp e m1 now1).severity = e.severity
    ∧ (wrapApp e m1 now1).httpStatus = e.httpStatus
    ∧ (wrapApp e m1 now1).stack = e.stack
    ∧ (wrapApp e m1 now1).metadata = copyMetadata e.metadata
    ∧ (wrapApp e m1 now1).cause = Cause.app e
    ∧ Wrap (Cause.app (wrapApp e m1 now1)) m2 now2 site2 =
        some (wrapApp (wrapApp e m1 now1) m2 now2)
    ∧ (wrapApp (wrapApp e m1 now1) m2 now2).stack = e.stack :=
  ⟨rfl, rfl, rfl, rfl, rfl, rfl, rfl, rfl, rfl⟩

/-! ## Claim C9 -/

/-- C9 counterexample: an error whose httpStatus equals its current code's
canonical status (NotFound, 404) keeps httpStatus 404 after
`WithCode(Conflict)` — the mutator does not refresh an httpStatus that sits
at the previous code's default, contrary to the claim (Conflict's canonical
status is 409). -/
theorem c9_counterexample :
    ¬ (∀ (e : ErrVal) (c : Code), e.httpStatus = e.code.httpStatus →
        (e.WithCode c).httpStatus = c.httpStatus) := by
  intro h
  have hc := h (WithCode Code.notFound "workspace not found" 0 0) Code.conflict rfl
  have h404 : ((WithCode Code.notFound "workspace not found" 0 0).WithCode
      Code.conflict).httpStatus = 404 := rfl
  rw [h404] at hc
  have h409 : Code.conflict.httpStatus = 409 := rfl
  rw [h409] at hc
  cases hc

/-- C9 (amended): `WithCode(newCode)` sets the code to newCode, and
refreshes the httpStatus to newCode's canonical status only when the
current httpStatus is 0 (unset); any non-zero httpStatus — including one
still equal to the previous code's default — is left unchanged (an
httpStatus already equal to newCode's canonical status is overwritten with
the same value). -/
theorem c9_with_code_mutator (e : ErrVal) (c : Code) :
    (e.WithCode c).code = c
    ∧ (e.httpStatus = 0 → (e.WithCode c).httpStatus = c.httpStatus)
    ∧ (e.httpStatus ≠ 0 → (e.WithCode c).httpStatus = e.httpStatus) := by
  refine ⟨withCodeMut_code e c, ?_, ?_⟩
  · intro h0
    rw [withCodeMut_httpStatus, if_pos (Or.inl h0)]
  · intro hne
    rw [withCodeMut_httpStatus]
    by_cases heq : e.httpStatus = c.httpStatus
    · rw [if_pos (Or.inr heq), heq]
    · rw [if_neg]
      simp [hne, heq]

/-- C9 witness for the amended theorem at a concrete mutation: the code
changes to Conflict but the 404 httpStatus (non-zero) stays. -/
theorem c9_with_code_mutator_witness :
    ((WithCode Code.notFound "workspace not found" 0 0).WithCode Code.conflict).code =
      Code.conflict
    ∧ ((WithCode Code.notFound "workspace not found" 0 0).WithCode
        Code.conflict).httpStatus =
        (WithCode Code.notFound "workspace not found" 0 0).httpStatus :=
  ⟨(c9_with_code_mutator (WithCode Code.notFound "workspace not found" 0 0)
      Code.conflict).1,
   (c9_with_code_mutator (WithCode Code.notFound "workspace not found" 0 0)
      Code.conflict).2.2 (by decide)⟩

/-! ## Claim C2 -/

/-- C2: from a fresh handle, `Begin; Begin; Commit; Commit` (all physical
operations succeeding) succeeds at every call, performs exactly one
physical commit and no physical rollback (the one `beginTx`/`commitTx`
pair is the entire physical trace), and ends with the transaction cleared;
after `Begin; Begin` the state is depth 2, and the inner (first) `Commit`
on it returns success with an empty physical trace, leaving the
transaction open. -/
theorem c2_nested_commit_once :
    runOk (UnitOfWork.mk false 0 false)
        [Cmd.beginCmd, Cmd.beginCmd, Cmd.commitCmd, Cmd.commitCmd] =
      (UnitOfWork.mk false 0 false, [PhysOp.beginTx, PhysOp.commitTx],
        [Option.none, Option.none, Option.none, Option.none])
    ∧ runOk (UnitOfWork.mk false 0 false) [Cmd.beginCmd, Cmd.beginCmd] =
        (UnitOfWork.mk true 2 false, [PhysOp.beginTx], [Option.none, Option.none])
    ∧ (UnitOfWork.mk true 2 false).Commit Option.none 0 0 =
        (UnitOfWork.mk true 1 false, [], Option.none) :=
  ⟨rfl, rfl, rfl⟩

/-! ## Claim C3 -/

/-- C3: from any state with depth > 0, one `Rollback` resets the handle to
cleared/depth-0/not-failed while performing exactly one physical rollback;
on any handle at depth 0, `Commit` leaves the state unchanged, touches
nothing physical and fails with the "no active transaction" Internal
error (so every subsequent `Commit` after the rollback fails), while
`Rollback` at depth 0 is a successful no-op. -/
theorem c3_rollback_global (u v : UnitOfWork) (hu : 0 < u.depth) (hv : v.depth = 0)
    (p q : Option RawErr) (now site now2 site2 : Nat) :
    (u.Rollback p now site).1 = UnitOfWork.mk false 0 false
    ∧ (u.Rollback p now site).2.1 = [PhysOp.rollbackTx]
    ∧ (v.Commit q now2 site2).1 = v
    ∧ (v.Commit q now2 site2).2.1 = []
    ∧ (v.Commit q now2 site2).2.2.map ErrVal.message = some "no active transaction"
    ∧ (v.Commit q now2 site2).2.2.map ErrVal.code = some Code.internal
    ∧ v.Rollback q now2 site2 = (v, [], Option.none) := by
  obtain ⟨ut, ud, uf⟩ := u
  obtain ⟨vt, vd, vf⟩ := v
  have hu' : 0 < ud := hu
  have hv' : vd = 0 := hv
  subst hv'
  have hd : ¬ (ud = 0) := by omega
  refine ⟨?_, ?_, rfl, rfl, rfl, rfl, rfl⟩
  · cases p <;> simp [UnitOfWork.Rollback, UnitOfWork.doRollback, hd]
  · cases p <;> simp [UnitOfWork.Rollback, UnitOfWork.doRollback, hd]

/-- C3 witness at the state reached by `Begin; Begin` and the fresh state. -/
theorem c3_rollback_global_witness :
    ((UnitOfWork.mk true 2 false).Rollback Option.none 0 0).1 = UnitOfWork.mk false 0 false :=
  (c3_rollback_global (UnitOfWork.mk true 2 false) (UnitOfWork.mk false 0 false)
    (by decide) rfl Option.none Option.none 0 0 0 0).1

/-! ## Claim C10 -/

/-- Every single call preserves a cleared failed flag: `Begin` never sets
it, `Commit` with a cleared flag never reaches its rollback branch, and
`Rollback` sets it only transiently before `doRollback` clears it. -/
theorem step_failed_false (u : UnitOfWork) (c : Cmd) (p : Option RawErr) (now site : Nat)
    (h : u.failed = false) : (step u c p now site).1.failed = false := by
  cases c
  · by_cases hd : u.depth = 0
    · cases p <;> simp [step, UnitOfWork.Begin, hd, h]
    · simp [step, UnitOfWork.Begin, hd, h]
  · by_cases hd : u.depth = 0
    · simp [step, UnitOfWork.Commit, hd, h]
    · by_cases hd1 : 0 < u.depth - 1
      · simp [step, UnitOfWork.Commit, hd, hd1, h]
      · cases p <;> simp [step, UnitOfWork.Commit, UnitOfWork.doRollback, hd, hd1, h]
  · by_cases hd : u.depth = 0
    · simp [step, UnitOfWork.Rollback, hd, h]
    · cases p <;> simp [step, UnitOfWork.Rollback, UnitOfWork.doRollback, hd, h]

/-- In every reachable coordinator state the failed flag is cleared. -/
theorem reachable_failed_false (u : UnitOfWork) (h : Reachable u) : u.failed = false := by
  induction h with
  | fresh => rfl
  | next u c p now site hr ih => exact step_failed_false u c p now site ih

/-- C10: in every state reachable from a fresh handle by any sequence of
calls (with any physical outcomes) the failed flag is false when the call
returns, so the rollback-on-commit branch of `Commit` never runs: a
physical rollback can only be emitted by a `Rollback` call. -/
theorem c10_failed_flag_clear (u : UnitOfWork) (h : Reachable u) (c : Cmd)
    (p : Option RawErr) (now site : Nat) :
    u.failed = false ∧
    (PhysOp.rollbackTx ∈ (step u c p now site).2.1 → c = Cmd.rollbackCmd) := by
  have hf := reachable_failed_false u h
  refine ⟨hf, ?_⟩
  cases c
  · intro hmem
    exfalso
    by_cases hd : u.depth = 0
    · cases p <;> simp [step, UnitOfWork.Begin, hd] at hmem
    · simp [step, UnitOfWork.Begin, hd] at hmem
  · intro hmem
    exfalso
    by_cases hd : u.depth = 0
    · simp [step, UnitOfWork.Commit, hd] at hmem
    · by_cases hd1 : 0 < u.depth - 1
      · simp [step, UnitOfWork.Commit, hd, hd1] at hmem
      · cases p <;> simp [step, UnitOfWork.Commit, hd, hd1, hf] at hmem
  · intro _
    rfl

/-- C10 witness at the fresh (reachable) state. -/
theorem c10_failed_flag_clear_witness :
    (UnitOfWork.mk false 0 false).failed = false :=
  (c10_failed_flag_clear (UnitOfWork.mk false 0 false) Reachable.fresh Cmd.commitCmd
    Option.none 0 0).1

/-! ## Claim C4 -/

/-- An Error-severity value with a raw cause, as the generic classifier
branch produces it (used only by the C4 theorems). -/
def c4BadValue : ErrVal :=
  (((wrapRaw (RawErr.other "pq: password authentication failed")
      "database operation failed" 0 0).WithMetadata
    "operation" (MetaVal.str "connect")).WithHTTPStatus 500).WithSeverity
    Severity.error 0

/-- C4 counterexample: the serialized body's message field is `Error()`,
which concatenates the full cause chain, so the raw cause text appears in
the HTTP response body of an Error-severity failure — the claim's
"never in any field of the HTTP response body" is false. -/
theorem c4_counterexample :
    c4BadValue.severity = Severity.error
    ∧ (ErrorHandler (Cause.app c4BadValue) 0 0).map (fun r => r.2.1.error.message) =
        some "database operation failed: pq: password authentication failed"
    ∧ "database operation failed: pq: password authentication failed" ≠
        c4BadValue.message :=
  ⟨rfl, rfl, by decide⟩

/-- C4 (amended): the handler serializes status = httpStatus and the body
`{code, message, metadata}`; the stack trace never reaches the response
(replacing the stack leaves status and body unchanged) and does appear in
the structured log record; but the body's message field is `Error()`,
which includes the full cause chain rather than only a generic message. -/
theorem c4_stack_never_in_response (e : ErrVal) (st : List Nat) (now site : Nat) :
    (ErrorHandler (Cause.app (e.withStackField st)) now site).map (fun r => (r.1, r.2.1)) =
      (ErrorHandler (Cause.app e) now site).map (fun r => (r.1, r.2.1))
    ∧ (ErrorHandler (Cause.app e) now site).map (fun r => r.1) = some e.httpStatus
    ∧ (ErrorHandler (Cause.app e) now site).map (fun r => r.2.2.stack) = some e.stack
    ∧ (ErrorHandler (Cause.app e) now site).map (fun r => r.2.1.error.message) =
        some e.errString := by
  obtain ⟨m, c, s, ca, md, ts, stk, hs⟩ := e
  cases ca <;> exact ⟨rfl, rfl, rfl, rfl⟩

end DevShare
